import Mathlib

/-!
Verification of the audio-notes application (src/app.py) against its
natural-language specification.

The application's own functions — `assure_db_collection_exists`,
`add_note_to_db`, `list_notes_from_db`, `get_embedding`, and the audio
fingerprint / draft-reset logic of the main script — are translated from the
source.  The two external collaborators, the Qdrant vector store and the
OpenAI embedding provider, are not part of the repository; their behaviour is
modelled from the specification's interface contracts (§4.2, §6 of the spec).
Vector entries and similarity scores are modelled as rationals.
-/

namespace AudioNotes

/-- Embedding vectors: fixed-length numeric vectors, entries modelled as ℚ. -/
abbrev Vec := List ℚ

def EMBEDDING_MODEL : String := "text-embedding-3-large"

def EMBEDDING_DIM : Nat := 3072

def QDRANT_COLLECTION_NAME : String := "notes"

/-- Modelled from the spec: the distance metric of a collection
(`distanceMetric: cosine` is the one the app uses). -/
inductive Distance where
  | cosine
  | euclid
  | dot
deriving DecidableEq

/-- Modelled from the spec: collection schema parameters
`{dimension: D, distanceMetric}` (`VectorParams(size, distance)` in the code). -/
structure VectorParams where
  size : Nat
  distance : Distance
deriving DecidableEq

/-- Modelled from the spec: a stored point
`{id: uint64, vector: float32[D], payload: {text: string}}`.
The payload holds only the `"text"` field, so it is modelled as the text. -/
structure QPoint where
  id : Nat
  vector : Vec
  payload : String
deriving DecidableEq

/-- Modelled from the spec: a collection is a named container of
vector+payload records, with a fixed schema. -/
structure Collection where
  params : VectorParams
  points : List QPoint
deriving DecidableEq

/-- Modelled from the spec: the vector store holds named collections. -/
structure Store where
  collections : List (String × Collection)
deriving DecidableEq

/-- Look up a collection by name. -/
def Store.find (st : Store) (name : String) : Option Collection :=
  (st.collections.find? (fun nc => nc.1 == name)).map Prod.snd

/-- Modelled from the spec: `exists(name) -> bool`. -/
def Store.collection_exists (st : Store) (name : String) : Bool :=
  (st.find name).isSome

/-- Modelled from the spec: `create(name, dim, metric)` — creates an empty
collection with the given schema. -/
def Store.create_collection (st : Store) (name : String) (params : VectorParams) : Store :=
  ⟨st.collections ++ [(name, ⟨params, []⟩)]⟩

/-- Modelled from the spec: `count(name) -> exact unsigned integer`
(the exact number of points), `none` when the collection does not exist. -/
def Store.countOf (st : Store) (name : String) : Option Nat :=
  (st.find name).map (fun c => c.points.length)

/-- Insert-or-replace a point in a point list, keyed by `id`
(the store's upsert semantics). -/
def upsertList (p : QPoint) : List QPoint → List QPoint
  | [] => [p]
  | q :: rest => if q.id = p.id then p :: rest else q :: upsertList p rest

/-- Upsert one point into a collection. -/
def Collection.upsert (c : Collection) (p : QPoint) : Collection :=
  ⟨c.params, upsertList p c.points⟩

/-- Modelled from the spec: `upsert(id, vector, payload)` on the named
collection of the store. -/
def Store.upsertPoint (st : Store) (name : String) (p : QPoint) : Store :=
  ⟨st.collections.map (fun nc => if nc.1 = name then (nc.1, nc.2.upsert p) else nc)⟩

/--
The environment an application operation runs in:
* `client` — the result of `get_qdrant_client()`: `none` models a failed
  connection (the function returns `None` after catching the error);
* `sim` — modelled from the spec: the store's similarity scoring used by
  nearest-neighbor `search`;
* `embed` — the embedding call `get_embedding`; `Except.error` models a
  raised exception (network failure, provider error);
* the `…Fails` flags inject store-side failures (a raised exception) into
  the corresponding store call.
-/
structure Env where
  client : Option Store
  sim : Vec → Vec → ℚ
  embed : String → Except String Vec
  countFails : Bool
  upsertFails : Bool
  scrollFails : Bool
  searchFails : Bool
  bootFails : Bool

/-- `qdrant_client.count(collection_name, exact=True)` as run by the app:
fails when the injected failure flag is set or the collection is missing. -/
def Env.qcount (e : Env) (st : Store) : Except String Nat :=
  if e.countFails then .error "count failed"
  else
    match st.find QDRANT_COLLECTION_NAME with
    | none => .error "collection missing"
    | some c => .ok c.points.length

/-- `qdrant_client.upsert(collection_name, points=[p])` as run by the app. -/
def Env.qupsert (e : Env) (st : Store) (p : QPoint) : Except String Store :=
  if e.upsertFails then .error "upsert failed"
  else if st.collection_exists QDRANT_COLLECTION_NAME then
    .ok (st.upsertPoint QDRANT_COLLECTION_NAME p)
  else .error "collection missing"

/-- `qdrant_client.scroll(collection_name, limit)[0]` as run by the app:
a bounded scroll returning at most `limit` points (an arbitrary bounded
subset per the spec; modelled as the first `limit` stored points). -/
def Env.qscroll (e : Env) (st : Store) (limit : Nat) : Except String (List QPoint) :=
  if e.scrollFails then .error "scroll failed"
  else
    match st.find QDRANT_COLLECTION_NAME with
    | none => .error "collection missing"
    | some c => .ok (c.points.take limit)

/-- Modelled from the spec: `search(name, queryVector, limit)` returns
`(record, score)` pairs ordered by descending similarity, at most `limit`. -/
def Env.qsearch (e : Env) (st : Store) (qv : Vec) (limit : Nat) :
    Except String (List (QPoint × ℚ)) :=
  if e.searchFails then .error "search failed"
  else
    match st.find QDRANT_COLLECTION_NAME with
    | none => .error "collection missing"
    | some c =>
      .ok (((c.points.map (fun p => (p, e.sim qv p.vector))).insertionSort
        (fun a b => b.2 ≤ a.2)).take limit)

/-- `Halt` models `st.stop()`: the active flow is aborted. -/
inductive Halt where
  | stop
deriving DecidableEq

/-- `assure_db_collection_exists` from src/app.py: aborts (`st.stop()`) when
the client is unavailable or the existence check / creation raises; otherwise
creates the collection with dimension `EMBEDDING_DIM` and cosine distance
when it is absent, and does nothing when it is present. -/
def assure_db_collection_exists (e : Env) : Except Halt Store :=
  match e.client with
  | none => .error .stop
  | some st =>
    if e.bootFails then .error .stop
    else if st.collection_exists QDRANT_COLLECTION_NAME then .ok st
    else .ok (st.create_collection QDRANT_COLLECTION_NAME ⟨EMBEDDING_DIM, Distance.cosine⟩)

/-- `add_note_to_db` from src/app.py: returns `False` when the client is
unavailable; otherwise counts (exact), embeds, and upserts one point with
`id = count + 1`, vector from the embedding, and payload `{text}`; any
exception along the way is caught and `False` returned.  The second
component is the resulting store state (unchanged on failure). -/
def add_note_to_db (e : Env) (note_text : String) : Bool × Option Store :=
  match e.client with
  | none => (false, none)
  | some st =>
    match e.qcount st with
    | .error _ => (false, some st)
    | .ok c =>
      match e.embed note_text with
      | .error _ => (false, some st)
      | .ok v =>
        match e.qupsert st ⟨c + 1, v, note_text⟩ with
        | .error _ => (false, some st)
        | .ok st2 => (true, some st2)

/-- One entry returned by `list_notes_from_db`: `{text, score}` with
`score = none` on the unranked listing path. -/
structure SearchResult where
  text : String
  score : Option ℚ
deriving DecidableEq

/-- `list_notes_from_db` from src/app.py.  `query = none` models Python's
`None`; Python's `if not query:` sends both `None` and `""` to the scroll
path.  Any exception is caught and `[]` returned. -/
def list_notes_from_db (e : Env) (query : Option String) : List SearchResult :=
  match e.client with
  | none => []
  | some st =>
    let scrollPath : List SearchResult :=
      match e.qscroll st 10 with
      | .error _ => []
      | .ok notes => notes.map (fun n => ⟨n.payload, none⟩)
    match query with
    | none => scrollPath
    | some q =>
      if q = "" then scrollPath
      else
        match e.embed q with
        | .error _ => []
        | .ok qv =>
          match e.qsearch st qv 10 with
          | .error _ => []
          | .ok notes => notes.map (fun n => ⟨n.1.payload, some n.2⟩)

/-- The session state fields used by the audio-capture / draft logic of the
main script (`note_audio_bytes`, `note_audio_bytes_md5`, `note_audio_text`,
`note_text`). -/
structure SessionState where
  note_audio_bytes : Option (List Nat)
  note_audio_bytes_md5 : Option String
  note_audio_text : String
  note_text : String
deriving DecidableEq

/-- The audio-capture fragment of the main script (src/app.py lines
247–255): store the newly captured bytes, compute their md5 fingerprint,
and when it differs from the stored fingerprint reset the transcript
(`note_audio_text`) and the edited text (`note_text`) to `""` and store the
new fingerprint.  `md5hash` is the fingerprint function (md5 hex digest),
modelled as a parameter: a function of the raw bytes. -/
def processAudioCapture (md5hash : List Nat → String) (s : SessionState)
    (newBytes : List Nat) : SessionState :=
  let s1 := { s with note_audio_bytes := some newBytes }
  let current_md5 := md5hash newBytes
  if s1.note_audio_bytes_md5 ≠ some current_md5 then
    { s1 with
      note_audio_text := ""
      note_text := ""
      note_audio_bytes_md5 := some current_md5 }
  else s1

/-- Modelled from the spec: one item of the embedding response
(`result.data[i].embedding`). -/
structure EmbeddingData where
  embedding : Vec

/-- Modelled from the spec: the embedding provider's response, carrying a
list of embedding items (`result.data`). -/
structure EmbeddingResponse where
  data : List EmbeddingData

/-- `get_embedding` from src/app.py: calls the provider with the text, the
model name and `dimensions = EMBEDDING_DIM`, and returns
`result.data[0].embedding`; indexing an empty `data` raises. -/
def get_embedding (create : String → String → Nat → EmbeddingResponse)
    (text : String) : Except String Vec :=
  match (create text EMBEDDING_MODEL EMBEDDING_DIM).data with
  | [] => .error "list index out of range"
  | d :: _ => .ok d.embedding

/-- `get_qdrant_client` with its `@st.cache_resource` memoization: the cache
holds the previous return value when present — including a cached `None`
from a failed connection — and otherwise the fresh connection attempt
`connect` is performed and cached. -/
def get_qdrant_client (connect : Option Store) (cache : Option (Option Store)) :
    Option Store × Option (Option Store) :=
  match cache with
  | some r => (r, some r)
  | none => (connect, some connect)

/-- `st.cache_resource.clear()` triggered by the sidebar button. -/
def clear_cache (_cache : Option (Option Store)) : Option (Option Store) := none

/-- The user-visible operations of the main script after bootstrap. -/
inductive AppAction where
  | add (text : String)
  | list (query : Option String)

/-- Run one post-bootstrap action against the current store state. -/
def runAction (e : Env) (st : Store) : AppAction → Store × List SearchResult
  | .add t =>
    match add_note_to_db { e with client := some st } t with
    | (_, some st2) => (st2, [])
    | (_, none) => (st, [])
  | .list q => (st, list_notes_from_db { e with client := some st } q)

/-- The main flow of src/app.py: `assure_db_collection_exists()` runs first
(it halts the script when the store is unreachable), and only then are any
add / list actions performed. -/
def runApp (e : Env) (actions : List AppAction) : Except Halt Store :=
  match assure_db_collection_exists e with
  | .error h => .error h
  | .ok st => .ok (actions.foldl (fun s a => (runAction e s a).1) st)

/-- The ids-bounded invariant: every point's id in the app's collection is
at most the point count.  It holds for the collection as created by the
bootstrap (no points) and is preserved by `add_note_to_db`; it encodes
"single writer, no deletions since creation". -/
def idsBounded (st : Store) : Prop :=
  ∀ c, st.find QDRANT_COLLECTION_NAME = some c → ∀ p ∈ c.points, p.id ≤ c.points.length

/-- The score of a `SearchResult`, defaulting to `0` when absent. -/
def score0 (r : SearchResult) : ℚ := r.score.getD 0

/-- A well-behaved test collection with the app's schema and no points. -/
def testCollection : Collection := ⟨⟨EMBEDDING_DIM, Distance.cosine⟩, []⟩

/-- A test store holding just the app's collection. -/
def testStore : Store := ⟨[(QDRANT_COLLECTION_NAME, testCollection)]⟩

/-- A failure-free test environment over `testStore`. -/
def testEnv : Env where
  client := some testStore
  sim := fun _ _ => 0
  embed := fun _ => .ok [1]
  countFails := false
  upsertFails := false
  scrollFails := false
  searchFails := false
  bootFails := false

/-- An environment whose connection attempt failed (`get_qdrant_client`
returned `None`). -/
def downEnv : Env := { testEnv with client := none }

/-- An environment whose `count` call raises. -/
def countFailEnv : Env := { testEnv with countFails := true }

/-- An environment whose embedding call raises. -/
def embedFailEnv : Env := { testEnv with embed := fun _ => .error "boom" }

/-- A stored test note. -/
def p1 : QPoint := ⟨1, [1], "buy milk"⟩

/-- A second stored test note. -/
def p2 : QPoint := ⟨2, [0], "call mom"⟩

/-- A test collection holding two notes. -/
def rankCollection : Collection := ⟨⟨EMBEDDING_DIM, Distance.cosine⟩, [p1, p2]⟩

/-- A test store holding `rankCollection`. -/
def rankStore : Store := ⟨[(QDRANT_COLLECTION_NAME, rankCollection)]⟩

/-- A failure-free environment over `rankStore`, scoring a point by the head
of its vector. -/
def rankEnv : Env :=
  { testEnv with client := some rankStore, sim := fun _ pv => pv.headD 0 }

/-- An embedding provider satisfying the provider contract: one vector of
the requested dimension. -/
def constProvider : String → String → Nat → EmbeddingResponse :=
  fun _ _ d => ⟨[⟨List.replicate d 0⟩]⟩

/-! ## Helper lemmas about the store model -/

theorem find?_map_upsert (name : String) (p : QPoint) (l : List (String × Collection)) :
    (l.map (fun nc => if nc.1 = name then (nc.1, nc.2.upsert p) else nc)).find?
      (fun nc => nc.1 == name) =
    (l.find? (fun nc => nc.1 == name)).map (fun nc => (nc.1, nc.2.upsert p)) := by
  induction l with
  | nil => rfl
  | cons hd tl ih =>
    by_cases h : hd.1 = name
    · simp [h]
    · simp [h, ih]

theorem find_upsertPoint (st : Store) (name : String) (p : QPoint) :
    (st.upsertPoint name p).find name = (st.find name).map (fun c => c.upsert p) := by
  unfold Store.upsertPoint Store.find
  rw [find?_map_upsert]
  cases st.collections.find? (fun nc => nc.1 == name) <;> rfl

theorem upsertList_of_not_mem (p : QPoint) (l : List QPoint)
    (h : ∀ q ∈ l, q.id ≠ p.id) : upsertList p l = l ++ [p] := by
  induction l with
  | nil => rfl
  | cons hd tl ih =>
    have hhd : hd.id ≠ p.id := h hd (List.mem_cons_self hd tl)
    simp [upsertList, hhd, ih (fun q hq => h q (List.mem_cons_of_mem hd hq))]

theorem find?_eq_none_of_not_exists (st : Store) (name : String)
    (h : st.collection_exists name = false) :
    st.collections.find? (fun nc => nc.1 == name) = none := by
  unfold Store.collection_exists Store.find at h
  cases hf : st.collections.find? (fun nc => nc.1 == name)
  · rfl
  · rw [hf] at h
    simp at h

theorem find_create_of_not_exists (st : Store) (name : String) (params : VectorParams)
    (h : st.collection_exists name = false) :
    (st.create_collection name params).find name = some ⟨params, []⟩ := by
  unfold Store.create_collection Store.find
  rw [List.find?_append, find?_eq_none_of_not_exists st name h]
  simp

theorem qcount_ok (e : Env) (st : Store) (n : Nat) (h : e.qcount st = .ok n) :
    e.countFails = false ∧ ∃ c, st.find QDRANT_COLLECTION_NAME = some c ∧
      n = c.points.length := by
  unfold Env.qcount at h
  cases hf : e.countFails
  · rw [hf] at h
    simp only [Bool.false_eq_true, if_false] at h
    cases hfind : st.find QDRANT_COLLECTION_NAME
    · rw [hfind] at h
      exact absurd h (by simp)
    · rw [hfind] at h
      exact ⟨rfl, _, rfl, (Except.ok.inj h).symm⟩
  · rw [hf] at h
    simp at h

theorem qupsert_ok (e : Env) (st st' : Store) (p : QPoint)
    (h : e.qupsert st p = .ok st') :
    e.upsertFails = false ∧ st.collection_exists QDRANT_COLLECTION_NAME = true ∧
      st' = st.upsertPoint QDRANT_COLLECTION_NAME p := by
  unfold Env.qupsert at h
  cases hf : e.upsertFails
  · rw [hf] at h
    simp only [Bool.false_eq_true, if_false] at h
    cases hex : st.collection_exists QDRANT_COLLECTION_NAME
    · rw [hex] at h
      simp at h
    · rw [hex] at h
      simp at h
      exact ⟨rfl, rfl, h.symm⟩
  · rw [hf] at h
    simp at h

theorem qupsert_eq_ok (e : Env) (st : Store) (p : QPoint)
    (hf : e.upsertFails = false)
    (he : st.collection_exists QDRANT_COLLECTION_NAME = true) :
    e.qupsert st p = .ok (st.upsertPoint QDRANT_COLLECTION_NAME p) := by
  simp [Env.qupsert, hf, he]

theorem qscroll_ok (e : Env) (st : Store) (limit : Nat) (notes : List QPoint)
    (h : e.qscroll st limit = .ok notes) :
    e.scrollFails = false ∧ ∃ c, st.find QDRANT_COLLECTION_NAME = some c ∧
      notes = c.points.take limit := by
  unfold Env.qscroll at h
  cases hf : e.scrollFails
  · rw [hf] at h
    simp only [Bool.false_eq_true, if_false] at h
    cases hfind : st.find QDRANT_COLLECTION_NAME
    · rw [hfind] at h
      exact absurd h (by simp)
    · rw [hfind] at h
      exact ⟨rfl, _, rfl, (Except.ok.inj h).symm⟩
  · rw [hf] at h
    simp at h

theorem qsearch_ok (e : Env) (st : Store) (qv : Vec) (limit : Nat)
    (res : List (QPoint × ℚ)) (h : e.qsearch st qv limit = .ok res) :
    e.searchFails = false ∧ ∃ c, st.find QDRANT_COLLECTION_NAME = some c ∧
      res = ((c.points.map (fun p => (p, e.sim qv p.vector))).insertionSort
        (fun a b => b.2 ≤ a.2)).take limit := by
  unfold Env.qsearch at h
  cases hf : e.searchFails
  · rw [hf] at h
    simp only [Bool.false_eq_true, if_false] at h
    cases hfind : st.find QDRANT_COLLECTION_NAME
    · rw [hfind] at h
      exact absurd h (by simp)
    · rw [hfind] at h
      exact ⟨rfl, _, rfl, (Except.ok.inj h).symm⟩
  · rw [hf] at h
    simp at h

theorem idsBounded_testStore : idsBounded testStore := by
  intro c hc p hp
  have h0 : testStore.find QDRANT_COLLECTION_NAME = some testCollection := rfl
  rw [h0] at hc
  rw [← Option.some.inj hc] at hp
  simp [testCollection] at hp

/-! ## Claim theorems -/

/-- C1: `add_note_to_db` obtains the collection's exact point count, derives
`nextId = count + 1`, embeds the text, upserts one point with id `nextId`,
the embedding vector, and payload `{text}`, and returns `true` on success. -/
theorem add_note_steps (e : Env) (st : Store) (t : String) (c : Nat) (v : Vec)
    (h : e.client = some st) (hcount : e.qcount st = .ok c)
    (hembed : e.embed t = .ok v) (hup : e.upsertFails = false) :
    add_note_to_db e t =
      (true, some (st.upsertPoint QDRANT_COLLECTION_NAME ⟨c + 1, v, t⟩)) := by
  obtain ⟨hcf, col, hfind, hc⟩ := qcount_ok e st c hcount
  have hex : st.collection_exists QDRANT_COLLECTION_NAME = true := by
    simp [Store.collection_exists, hfind]
  simp [add_note_to_db, h, hcount, hembed, qupsert_eq_ok e st _ hup hex]

theorem add_note_steps_witness :
    testEnv.client = some testStore ∧ testEnv.qcount testStore = .ok 0 ∧
    testEnv.embed "note" = .ok [1] ∧ testEnv.upsertFails = false ∧
    add_note_to_db testEnv "note" =
      (true, some (testStore.upsertPoint QDRANT_COLLECTION_NAME ⟨1, [1], "note"⟩)) :=
  ⟨rfl, rfl, rfl, rfl, add_note_steps testEnv testStore "note" 0 [1] rfl rfl rfl rfl⟩

/-- C2: `assure_db_collection_exists` is idempotent: when the collection
already exists it performs no mutation (the store is returned unchanged,
hence schema and point count are unchanged), and after a first call — which
creates the collection with dimension 3072 and cosine metric when absent —
a second call returns the same store unchanged. -/
theorem assure_collection_idempotent (e : Env) (st : Store)
    (h : e.client = some st) (hb : e.bootFails = false) :
    (st.collection_exists QDRANT_COLLECTION_NAME = true →
      assure_db_collection_exists e = .ok st) ∧
    (∀ st', assure_db_collection_exists e = .ok st' →
      assure_db_collection_exists { e with client := some st' } = .ok st' ∧
      (st.collection_exists QDRANT_COLLECTION_NAME = false →
        st'.find QDRANT_COLLECTION_NAME =
          some ⟨⟨EMBEDDING_DIM, Distance.cosine⟩, []⟩)) := by
  have first : ∀ (st0 : Store) (e0 : Env), e0.client = some st0 → e0.bootFails = false →
      st0.collection_exists QDRANT_COLLECTION_NAME = true →
      assure_db_collection_exists e0 = .ok st0 := by
    intro st0 e0 h0 hb0 hex0
    simp [assure_db_collection_exists, h0, hb0, hex0]
  refine ⟨first st e h hb, ?_⟩
  intro st' hst'
  cases hex : st.collection_exists QDRANT_COLLECTION_NAME
  · have hcreate : assure_db_collection_exists e =
        .ok (st.create_collection QDRANT_COLLECTION_NAME ⟨EMBEDDING_DIM, Distance.cosine⟩) := by
      simp [assure_db_collection_exists, h, hb, hex]
    rw [hcreate] at hst'
    have heq := Except.ok.inj hst'
    have hfind : st'.find QDRANT_COLLECTION_NAME =
        some ⟨⟨EMBEDDING_DIM, Distance.cosine⟩, []⟩ := by
      rw [← heq]
      exact find_create_of_not_exists st _ _ hex
    have hex' : st'.collection_exists QDRANT_COLLECTION_NAME = true := by
      simp [Store.collection_exists, hfind]
    exact ⟨first st' { e with client := some st' } rfl hb hex', fun _ => hfind⟩
  · rw [first st e h hb hex] at hst'
    have heq := Except.ok.inj hst'
    subst heq
    refine ⟨first st { e with client := some st } rfl hb hex, ?_⟩
    intro hcon
    exact absurd hcon (by simp)

theorem assure_collection_idempotent_witness :
    testEnv.client = some testStore ∧ testEnv.bootFails = false ∧
    testStore.collection_exists QDRANT_COLLECTION_NAME = true ∧
    assure_db_collection_exists testEnv = .ok testStore ∧
    assure_db_collection_exists { testEnv with client := some testStore } = .ok testStore :=
  ⟨rfl, rfl, rfl,
    (assure_collection_idempotent testEnv testStore rfl rfl).1 rfl,
    ((assure_collection_idempotent testEnv testStore rfl rfl).2 testStore
      ((assure_collection_idempotent testEnv testStore rfl rfl).1 rfl)).1⟩

/-- C3: when a newly captured audio blob's md5 fingerprint differs from the
stored one, the transcript and the edited text are reset to `""` and the
fingerprint is updated; when it is identical, both are left unchanged (only
the captured bytes are stored). -/
theorem capture_fingerprint_reset (md5hash : List Nat → String) (s : SessionState)
    (b : List Nat) :
    (s.note_audio_bytes_md5 = some (md5hash b) →
      processAudioCapture md5hash s b = { s with note_audio_bytes := some b }) ∧
    (s.note_audio_bytes_md5 ≠ some (md5hash b) →
      processAudioCapture md5hash s b = ⟨some b, some (md5hash b), "", ""⟩) := by
  constructor
  · intro h
    simp [processAudioCapture, h]
  · intro h
    simp [processAudioCapture, h]

theorem capture_fingerprint_reset_witness :
    ((⟨none, some "h", "t", "e"⟩ : SessionState).note_audio_bytes_md5 = some "h" ∧
      processAudioCapture (fun _ => "h") ⟨none, some "h", "t", "e"⟩ [1] =
        ⟨some [1], some "h", "t", "e"⟩) ∧
    ((⟨none, none, "t", "e"⟩ : SessionState).note_audio_bytes_md5 ≠ some "h" ∧
      processAudioCapture (fun _ => "h") ⟨none, none, "t", "e"⟩ [1] =
        ⟨some [1], some "h", "", ""⟩) :=
  ⟨⟨rfl, (capture_fingerprint_reset (fun _ => "h") ⟨none, some "h", "t", "e"⟩ [1]).1 rfl⟩,
   ⟨by simp, (capture_fingerprint_reset (fun _ => "h") ⟨none, none, "t", "e"⟩ [1]).2 (by simp)⟩⟩

/-- C10: an empty-string query is treated the same as an absent query —
`list_notes_from_db` takes the unranked scroll path and the two calls return
identical results. -/
theorem list_notes_empty_query (e : Env) :
    list_notes_from_db e (some "") = list_notes_from_db e none := by
  cases hc : e.client <;> simp [list_notes_from_db, hc]

theorem list_notes_none_shape (e : Env) :
    list_notes_from_db e none = [] ∨
    ∃ st col, e.client = some st ∧ e.scrollFails = false ∧
      st.find QDRANT_COLLECTION_NAME = some col ∧
      list_notes_from_db e none =
        (col.points.take 10).map (fun p => ⟨p.payload, none⟩) := by
  cases hc : e.client with
  | none => exact Or.inl (by simp [list_notes_from_db, hc])
  | some st =>
    cases hs : e.qscroll st 10 with
    | error msg => exact Or.inl (by simp [list_notes_from_db, hc, hs])
    | ok notes =>
      obtain ⟨hf, col, hcol, hnotes⟩ := qscroll_ok e st 10 notes hs
      refine Or.inr ⟨st, col, rfl, hf, hcol, ?_⟩
      rw [hnotes] at hs
      simp [list_notes_from_db, hc, hs]

/-- C4: with no query, `list_notes_from_db` returns at most 10 results, each
with `score = none`, obtained by a bounded scroll (the result does not depend
on the embedding function — no embedding call is made on this path). -/
theorem list_notes_no_query (e : Env) :
    (list_notes_from_db e none).length ≤ 10 ∧
    (∀ x ∈ list_notes_from_db e none, x.score = none) ∧
    (∀ f, list_notes_from_db { e with embed := f } none = list_notes_from_db e none) ∧
    (∀ st col, e.client = some st → e.scrollFails = false →
      st.find QDRANT_COLLECTION_NAME = some col →
      list_notes_from_db e none =
        (col.points.take 10).map (fun p => ⟨p.payload, none⟩)) := by
  refine ⟨?_, ?_, ?_, ?_⟩
  · rcases list_notes_none_shape e with h0 | ⟨st, col, _, _, _, hlist⟩
    · rw [h0]
      simp
    · rw [hlist, List.length_map]
      exact List.length_take_le 10 _
  · intro x hx
    rcases list_notes_none_shape e with h0 | ⟨st, col, _, _, _, hlist⟩
    · rw [h0] at hx
      exact absurd hx (List.not_mem_nil x)
    · rw [hlist] at hx
      obtain ⟨p, _, hfx⟩ := List.mem_map.1 hx
      rw [← hfx]
  · intro f
    cases hc : e.client <;> simp [list_notes_from_db, hc, Env.qscroll]
  · intro st col hc hf hcol
    simp [list_notes_from_db, hc, Env.qscroll, hf, hcol]

theorem list_notes_no_query_witness :
    (list_notes_from_db rankEnv none).length ≤ 10 ∧
    (∀ x ∈ list_notes_from_db rankEnv none, x.score = none) ∧
    (rankEnv.client = some rankStore ∧ rankEnv.scrollFails = false ∧
      rankStore.find QDRANT_COLLECTION_NAME = some rankCollection ∧
      list_notes_from_db rankEnv none =
        (rankCollection.points.take 10).map (fun p => ⟨p.payload, none⟩)) :=
  ⟨(list_notes_no_query rankEnv).1, (list_notes_no_query rankEnv).2.1,
    rfl, rfl, rfl,
    (list_notes_no_query rankEnv).2.2.2 rankStore rankCollection rfl rfl rfl⟩

/-- C5: for a non-empty query whose embedding succeeds, `list_notes_from_db`
performs a top-10 similarity search: it returns at most 10 results, ordered
by non-increasing similarity score, and every result carries the store's
similarity score of a stored point (whose text it reports). -/
theorem list_notes_query_ranked (e : Env) (st : Store) (col : Collection)
    (q : String) (qv : Vec)
    (h : e.client = some st) (hq : q ≠ "") (hembed : e.embed q = .ok qv)
    (hs : e.searchFails = false) (hcol : st.find QDRANT_COLLECTION_NAME = some col) :
    (list_notes_from_db e (some q)).length ≤ 10 ∧
    List.Pairwise (fun a b => score0 b ≤ score0 a) (list_notes_from_db e (some q)) ∧
    ∀ x ∈ list_notes_from_db e (some q), ∃ p ∈ col.points,
      x.text = p.payload ∧ x.score = some (e.sim qv p.vector) := by
  have hlist : list_notes_from_db e (some q) =
      (((col.points.map (fun p => (p, e.sim qv p.vector))).insertionSort
        (fun a b => b.2 ≤ a.2)).take 10).map (fun n => ⟨n.1.payload, some n.2⟩) := by
    simp [list_notes_from_db, h, hq, hembed, Env.qsearch, hs, hcol]
  haveI htot : IsTotal (QPoint × ℚ) (fun a b => b.2 ≤ a.2) :=
    ⟨fun a b => le_total b.2 a.2⟩
  haveI htr : IsTrans (QPoint × ℚ) (fun a b => b.2 ≤ a.2) :=
    ⟨fun _ _ _ h1 h2 => le_trans h2 h1⟩
  refine ⟨?_, ?_, ?_⟩
  · rw [hlist, List.length_map]
    exact List.length_take_le 10 _
  · rw [hlist]
    have hsorted : List.Sorted (fun (a b : QPoint × ℚ) => b.2 ≤ a.2)
        ((col.points.map (fun p => (p, e.sim qv p.vector))).insertionSort
          (fun a b => b.2 ≤ a.2)) :=
      List.sorted_insertionSort _ _
    have htake := List.Pairwise.sublist (List.take_sublist 10 _) hsorted
    exact List.Pairwise.map _ (fun a b hab => hab) htake
  · intro x hx
    rw [hlist] at hx
    obtain ⟨n, hn, hfx⟩ := List.mem_map.1 hx
    have hn1 : n ∈ (col.points.map (fun p => (p, e.sim qv p.vector))).insertionSort
        (fun a b => b.2 ≤ a.2) := List.take_subset 10 _ hn
    have hn2 : n ∈ col.points.map (fun p => (p, e.sim qv p.vector)) :=
      (List.perm_insertionSort _ _).mem_iff.1 hn1
    obtain ⟨p, hp, hgp⟩ := List.mem_map.1 hn2
    refine ⟨p, hp, ?_, ?_⟩
    · rw [← hfx, ← hgp]
    · rw [← hfx, ← hgp]

theorem list_notes_query_ranked_witness :
    rankEnv.client = some rankStore ∧ "grocery" ≠ "" ∧
    rankEnv.embed "grocery" = .ok [1] ∧ rankEnv.searchFails = false ∧
    rankStore.find QDRANT_COLLECTION_NAME = some rankCollection ∧
    ((list_notes_from_db rankEnv (some "grocery")).length ≤ 10 ∧
      List.Pairwise (fun a b => score0 b ≤ score0 a)
        (list_notes_from_db rankEnv (some "grocery")) ∧
      ∀ x ∈ list_notes_from_db rankEnv (some "grocery"), ∃ p ∈ rankCollection.points,
        x.text = p.payload ∧ x.score = some (rankEnv.sim [1] p.vector)) :=
  ⟨rfl, by decide, rfl, rfl, rfl,
    list_notes_query_ranked rankEnv rankStore rankCollection "grocery" [1]
      rfl (by decide) rfl rfl rfl⟩

/-- C6: `add_note_to_db` and `list_notes_from_db` are total (they never
raise): an unavailable connection, a failing count, a failing embedding, or
a failing upsert make `add_note_to_db` return `false`, and an unavailable
connection, a failing scroll, a failing search, or a failing query embedding
make `list_notes_from_db` return the empty list. -/
theorem operations_degrade (e : Env) (t : String) (q : String) :
    (e.client = none →
      (add_note_to_db e t).1 = false ∧ ∀ qq, list_notes_from_db e qq = []) ∧
    (e.countFails = true → (add_note_to_db e t).1 = false) ∧
    ((e.embed t).toOption = none → (add_note_to_db e t).1 = false) ∧
    (e.upsertFails = true → (add_note_to_db e t).1 = false) ∧
    (e.scrollFails = true → list_notes_from_db e none = []) ∧
    (q ≠ "" → e.searchFails = true → list_notes_from_db e (some q) = []) ∧
    (q ≠ "" → (e.embed q).toOption = none → list_notes_from_db e (some q) = []) := by
  refine ⟨?_, ?_, ?_, ?_, ?_, ?_, ?_⟩
  · intro h
    exact ⟨by simp [add_note_to_db, h], fun qq => by simp [list_notes_from_db, h]⟩
  · intro h
    cases hc : e.client with
    | none => simp [add_note_to_db, hc]
    | some st => simp [add_note_to_db, hc, Env.qcount, h]
  · intro h
    cases hc : e.client with
    | none => simp [add_note_to_db, hc]
    | some st =>
      cases hcount : e.qcount st with
      | error m => simp [add_note_to_db, hc, hcount]
      | ok n =>
        cases hembed : e.embed t with
        | error m => simp [add_note_to_db, hc, hcount, hembed]
        | ok v =>
          rw [hembed] at h
          simp [Except.toOption] at h
  · intro h
    cases hc : e.client with
    | none => simp [add_note_to_db, hc]
    | some st =>
      cases hcount : e.qcount st with
      | error m => simp [add_note_to_db, hc, hcount]
      | ok n =>
        cases hembed : e.embed t with
        | error m => simp [add_note_to_db, hc, hcount, hembed]
        | ok v => simp [add_note_to_db, hc, hcount, hembed, Env.qupsert, h]
  · intro h
    cases hc : e.client with
    | none => simp [list_notes_from_db, hc]
    | some st => simp [list_notes_from_db, hc, Env.qscroll, h]
  · intro hq h
    cases hc : e.client with
    | none => simp [list_notes_from_db, hc]
    | some st =>
      cases hembed : e.embed q with
      | error m => simp [list_notes_from_db, hc, hq, hembed]
      | ok v => simp [list_notes_from_db, hc, hq, hembed, Env.qsearch, h]
  · intro hq h
    cases hc : e.client with
    | none => simp [list_notes_from_db, hc]
    | some st =>
      cases hembed : e.embed q with
      | error m => simp [list_notes_from_db, hc, hq, hembed]
      | ok v =>
        rw [hembed] at h
        simp [Except.toOption] at h

theorem operations_degrade_witness :
    downEnv.client = none ∧ (add_note_to_db downEnv "note").1 = false ∧
    list_notes_from_db downEnv (some "q") = [] ∧
    countFailEnv.countFails = true ∧ (add_note_to_db countFailEnv "note").1 = false ∧
    (embedFailEnv.embed "note").toOption = none ∧
    (add_note_to_db embedFailEnv "note").1 = false :=
  ⟨rfl, ((operations_degrade downEnv "note" "q").1 rfl).1,
    ((operations_degrade downEnv "note" "q").1 rfl).2 (some "q"),
    rfl, (operations_degrade countFailEnv "note" "q").2.1 rfl,
    rfl, (operations_degrade embedFailEnv "note" "q").2.2.1 rfl⟩

/-- C7: under the single-writer invariant `idsBounded` (every stored id is
at most the point count, as holds for every state the app itself can reach
since creation), a successful `add_note_to_db` increases the exact point
count by exactly 1 — the upserted id `count + 1` collides with no existing
id — and the invariant is preserved. -/
theorem add_note_increments_count (e : Env) (st st' : Store) (t : String)
    (h : e.client = some st) (hinv : idsBounded st)
    (hadd : add_note_to_db e t = (true, some st')) :
    (∃ n, st.countOf QDRANT_COLLECTION_NAME = some n ∧
      st'.countOf QDRANT_COLLECTION_NAME = some (n + 1)) ∧ idsBounded st' := by
  cases hcount : e.qcount st with
  | error m =>
    simp [add_note_to_db, h, hcount] at hadd
  | ok c =>
    cases hembed : e.embed t with
    | error m =>
      simp [add_note_to_db, h, hcount, hembed] at hadd
    | ok v =>
      cases hup : e.qupsert st ⟨c + 1, v, t⟩ with
      | error m =>
        simp [add_note_to_db, h, hcount, hembed, hup] at hadd
      | ok st2 =>
        simp only [add_note_to_db, h, hcount, hembed, hup,
          Prod.mk.injEq, Option.some.injEq, true_and] at hadd
        obtain ⟨hcf, col, hfind, hc⟩ := qcount_ok e st c hcount
        obtain ⟨huf, hex, hst2⟩ := qupsert_ok e st st2 _ hup
        have hstEq : st' = st.upsertPoint QDRANT_COLLECTION_NAME ⟨c + 1, v, t⟩ := by
          rw [← hadd, hst2]
        have hfresh : ∀ q ∈ col.points, q.id ≠ (⟨c + 1, v, t⟩ : QPoint).id := by
          intro q hq
          have h1 := hinv col hfind q hq
          show q.id ≠ c + 1
          omega
        have happ : upsertList ⟨c + 1, v, t⟩ col.points =
            col.points ++ [⟨c + 1, v, t⟩] :=
          upsertList_of_not_mem _ _ hfresh
        have hfind' : st'.find QDRANT_COLLECTION_NAME =
            some (col.upsert ⟨c + 1, v, t⟩) := by
          rw [hstEq, find_upsertPoint, hfind]
          rfl
        constructor
        · refine ⟨col.points.length, ?_, ?_⟩
          · simp [Store.countOf, hfind]
          · simp [Store.countOf, hfind', Collection.upsert, happ]
        · intro c'' hfind'' q hq
          rw [hfind'] at hfind''
          rw [← Option.some.inj hfind''] at hq ⊢
          simp only [Collection.upsert, happ] at hq ⊢
          rw [List.length_append]
          rcases List.mem_append.1 hq with hql | hqr
          · have h1 := hinv col hfind q hql
            simp only [List.length_cons, List.length_nil]
            omega
          · simp only [List.mem_singleton] at hqr
            rw [hqr]
            show c + 1 ≤ col.points.length + [(⟨c + 1, v, t⟩ : QPoint)].length
            simp only [List.length_cons, List.length_nil]
            omega

theorem add_note_increments_count_witness :
    testEnv.client = some testStore ∧
    add_note_to_db testEnv "note" =
      (true, some (testStore.upsertPoint QDRANT_COLLECTION_NAME ⟨1, [1], "note"⟩)) ∧
    ((∃ n, testStore.countOf QDRANT_COLLECTION_NAME = some n ∧
        (testStore.upsertPoint QDRANT_COLLECTION_NAME
          ⟨1, [1], "note"⟩).countOf QDRANT_COLLECTION_NAME = some (n + 1)) ∧
      idsBounded (testStore.upsertPoint QDRANT_COLLECTION_NAME ⟨1, [1], "note"⟩)) :=
  ⟨rfl, rfl,
    add_note_increments_count testEnv testStore
      (testStore.upsertPoint QDRANT_COLLECTION_NAME ⟨1, [1], "note"⟩) "note"
      rfl idsBounded_testStore rfl⟩

/-- C8: when the store is unreachable at bootstrap, the whole flow halts
(`st.stop`) before any add / list action is run; moreover the memoized
connection caches the failure, so a retry still sees `none` until the cache
is explicitly cleared, after which the fresh connection attempt is used. -/
theorem bootstrap_halts (e : Env) (actions : List AppAction) (st : Store)
    (h : e.client = none) :
    runApp e actions = .error .stop ∧
    (get_qdrant_client (some st) (some none)).1 = none ∧
    (get_qdrant_client (some st) (clear_cache (some none))).1 = some st := by
  refine ⟨?_, rfl, rfl⟩
  simp [runApp, assure_db_collection_exists, h]

theorem bootstrap_halts_witness :
    downEnv.client = none ∧
    (runApp downEnv [AppAction.add "note", AppAction.list none] = .error .stop ∧
      (get_qdrant_client (some testStore) (some none)).1 = none ∧
      (get_qdrant_client (some testStore) (clear_cache (some none))).1 = some testStore) :=
  ⟨rfl, bootstrap_halts downEnv [AppAction.add "note", AppAction.list none] testStore rfl⟩

/-- C9: under the embedding provider contract — a request with
`dimensions = d` yields exactly one vector of length `d` — `get_embedding`
returns a vector of exactly `EMBEDDING_DIM = 3072` elements, for every
input text. -/
theorem get_embedding_dim (create : String → String → Nat → EmbeddingResponse)
    (text : String)
    (hcontract : ∀ t m d, ∃ u, (create t m d).data = [u] ∧ u.embedding.length = d) :
    ∃ v, get_embedding create text = .ok v ∧ v.length = EMBEDDING_DIM := by
  obtain ⟨u, hdata, hlen⟩ := hcontract text EMBEDDING_MODEL EMBEDDING_DIM
  refine ⟨u.embedding, ?_, hlen⟩
  simp [get_embedding, hdata]

theorem get_embedding_dim_witness :
    (∀ t m d, ∃ u, (constProvider t m d).data = [u] ∧ u.embedding.length = d) ∧
    ∃ v, get_embedding constProvider "note" = .ok v ∧ v.length = EMBEDDING_DIM :=
  ⟨fun _ _ d => ⟨⟨List.replicate d 0⟩, rfl, List.length_replicate d 0⟩,
    get_embedding_dim constProvider "note"
      (fun _ _ d => ⟨⟨List.replicate d 0⟩, rfl, List.length_replicate d 0⟩)⟩

end AudioNotes
